import Mathlib

set_option autoImplicit false

namespace RestaurantMenu

/-!
Shallow embedding of the restaurant-menu backend (src/app.py, src/models.py).

The relational store is a record of lists of rows; each operation is a pure
function from a store (plus the request payload) to a new store and a result.
A SQLAlchemy rollback is modelled by returning the original store; a commit by
returning the accumulated store.  Monetary values are exact rationals.
-/

/-- Row of the `dish` table (src/models.py, class Dish). -/
structure Dish where
  id : Nat
  name : String
  description : Option String
  price : ℚ
  categoryId : Nat
  restaurantId : Nat
deriving Repr, DecidableEq

/-- Row of the `category` table (src/models.py, class Category). -/
structure Category where
  id : Nat
  name : String
  restaurantId : Nat
deriving Repr, DecidableEq

/-- Row of the `order` table (src/models.py, class Order).  `createdAt` is the
calendar date of creation (the only part of the timestamp the claims use). -/
structure Order where
  id : Nat
  restaurantId : Nat
  tableNumber : Option String
  status : String
  createdAt : Nat
deriving Repr, DecidableEq

/-- Row of the `order_item` table (src/models.py, class OrderItem). -/
structure OrderItem where
  id : Nat
  orderId : Nat
  dishId : Nat
  quantity : Nat
deriving Repr, DecidableEq

/-- The relational store, with the autoincrement counters of the primary keys. -/
structure Store where
  categories : List Category
  dishes : List Dish
  orders : List Order
  orderItems : List OrderItem
  nextCategoryId : Nat
  nextOrderId : Nat
  nextItemId : Nat
deriving Repr, DecidableEq

/-! ### Identifier generator (src/app.py, generate_public_id) -/

/-- Characters of the base64url alphabet, the characters `secrets.token_urlsafe`
can emit. -/
def urlsafeB64Char (c : Char) : Bool := c.isAlphanum || c == '-' || c == '_'

/-- `secrets.token_urlsafe(8)` returns an 11-character base64url string
(8 bytes, padding stripped). -/
def validToken (t : List Char) : Bool := t.length == 11 && t.all urlsafeB64Char

/-- `generate_public_id`, as a function of the random token produced by
`secrets.token_urlsafe(8)`:
`"rest_" + token.replace("_", "").replace("-", "")[:8]`.
`str.replace(x, "")` removes every occurrence, i.e. filters the character out. -/
def generate_public_id (tok : List Char) : List Char :=
  "rest_".data ++ ((tok.filter (fun c => c != '_')).filter (fun c => c != '-')).take 8

/-! ### Price parser (src/app.py, extract_price_from_string) -/

/-- Character class of the regex `[\d.]+`. -/
def isPriceChar (c : Char) : Bool := c.isDigit || c == '.'

/-- `re.search(r'[\d.]+', s)`: the first maximal run of digits and dots,
or `none` when the string has neither a digit nor a dot. -/
def firstRun : List Char → Option (List Char)
  | [] => none
  | c :: cs => if isPriceChar c then some (c :: cs.takeWhile isPriceChar) else firstRun cs

/-- Value of a list of decimal digits read left to right. -/
def digitsVal (cs : List Char) : Nat := cs.foldl (fun n c => 10 * n + (c.toNat - 48)) 0

/-- Python `float(run)` on a non-empty run of digits and dots: defined exactly
when the run has at most one dot and at least one digit (otherwise `float`
raises `ValueError`), in which case it is the decimal value. -/
def pyFloatOfRun (cs : List Char) : Option ℚ :=
  if cs.count '.' ≤ 1 && cs.any Char.isDigit then
    let ip := cs.takeWhile (fun c => c ≠ '.')
    let fp := (cs.dropWhile (fun c => c ≠ '.')).drop 1
    some ((digitsVal ip : ℚ) + (digitsVal fp : ℚ) / (10 : ℚ) ^ fp.length)
  else none

/-- `extract_price_from_string`: `none` models a raised exception. -/
def extract_price_from_string (s : String) : Option ℚ :=
  match firstRun s.data with
  | some run => pyFloatOfRun run
  | none => some 0

/-! ### Category get-or-create (src/app.py, get_or_create_category) -/

/-- The `filter_by(restaurant_id=…, name=…)` predicate. -/
def categoryMatches (rid : Nat) (name : String) (c : Category) : Bool :=
  c.restaurantId == rid && c.name == name

/-- `get_or_create_category(restaurant_id, category_name)`: look up the first
matching row; when absent, insert a fresh row (flush assigns the next id).
Returns the resulting store and the category id. -/
def get_or_create_category (s : Store) (rid : Nat) (name : String) : Store × Nat :=
  match s.categories.find? (categoryMatches rid name) with
  | some c => (s, c.id)
  | none =>
    ({ s with
        categories := s.categories ++ [⟨s.nextCategoryId, name, rid⟩],
        nextCategoryId := s.nextCategoryId + 1 },
      s.nextCategoryId)

/-! ### Order creation (src/app.py, create_order_client) -/

/-- One line of the submitted cart: the payload dict has an `id` and possibly a
requested quantity; the source reads only `item['id']`. -/
structure CartLine where
  id : Nat
  quantity : Option Nat
deriving Repr, DecidableEq

/-- Python `str(x)` on the optional `table_number` payload field:
`str(None) = "None"`. -/
def pyStr : Option String → String
  | none => "None"
  | some v => v

/-- `Dish.query.filter_by(id=…, restaurant_id=…).first()`. -/
def findDish (s : Store) (did rid : Nat) : Option Dish :=
  s.dishes.find? (fun d => d.id == did && d.restaurantId == rid)

/-- Outcome of the order-creation endpoint. -/
inductive CreateResult where
  | ok (orderId : Nat)
  | emptyCart
  | dishNotFound (dishId : Nat)
deriving Repr, DecidableEq

/-- The item loop of `create_order_client`: resolve each cart line's dish in
the restaurant's scope and stage one `OrderItem` with quantity 1 per line;
fail with the first unresolvable dish id. -/
def buildOrderItems (s : Store) (rid oid : Nat) : Nat → List CartLine → Except Nat (List OrderItem)
  | _, [] => Except.ok []
  | nid, l :: rest =>
    match findDish s l.id rid with
    | none => Except.error l.id
    | some d =>
      match buildOrderItems s rid oid (nid + 1) rest with
      | Except.error e => Except.error e
      | Except.ok items => Except.ok (⟨nid, oid, d.id, 1⟩ :: items)

/-- `create_order_client` (the transactional core): reject an empty cart; stage
the order header (flush assigns its id), stage the items; on a missing dish
roll back (the original store is returned unchanged); otherwise commit
everything together. -/
def create_order_client (s : Store) (rid : Nat) (tn : Option String)
    (lines : List CartLine) (today : Nat) : Store × CreateResult :=
  if lines.isEmpty then (s, CreateResult.emptyCart)
  else
    let oid := s.nextOrderId
    match buildOrderItems s rid oid s.nextItemId lines with
    | Except.error did => (s, CreateResult.dishNotFound did)
    | Except.ok newItems =>
      ({ s with
          orders := s.orders ++ [⟨oid, rid, some (pyStr tn), "pending", today⟩],
          orderItems := s.orderItems ++ newItems,
          nextOrderId := oid + 1,
          nextItemId := s.nextItemId + newItems.length },
        CreateResult.ok oid)

/-! ### HTTP layer of order creation (src/app.py lines 259-281) -/

/-- Just enough JSON to state what the route returns. -/
inductive Json where
  | num (n : Nat)
  | str (s : String)
  | arr (elems : List Json)
  | obj (fields : List (String × Json))

/-- The route body of `POST /api/order/<public_id>`.  Note the source's error
branch is `return jsonify({'error': …}, 400)`: both arguments are inside
`jsonify`, which serializes them as a two-element JSON array, and the response
status defaults to 200. -/
def create_order_route (s : Store) (rid : Nat) (tn : Option String)
    (lines : List CartLine) (today : Nat) : Store × Json × Nat :=
  match create_order_client s rid tn lines today with
  | (s', CreateResult.ok oid) =>
      (s', (Json.obj [("order_id", Json.num oid)], 201))
  | (s', CreateResult.emptyCart) =>
      (s', (Json.obj [("error", Json.str "Aucun plat sélectionné")], 400))
  | (s', CreateResult.dishNotFound did) =>
      (s', (Json.arr [Json.obj [("error", Json.str ("Plat non trouvé: " ++ toString did))],
              Json.num 400], 200))

/-! ### Order confirmation (src/app.py, confirm_order) -/

/-- `POST /api/order/<id>/confirm`: `get_or_404`, then set the status to
`'validated'` unconditionally and commit.  Returns the store and the HTTP
status code. -/
def confirm_order (s : Store) (oid : Nat) : Store × Nat :=
  if s.orders.any (fun o => o.id == oid) then
    ({ s with
        orders := s.orders.map (fun o =>
          if o.id == oid then { o with status := "validated" } else o) },
      200)
  else (s, 404)

/-! ### Rounding (Python round(x, 2)) -/

/-- Python `round` on an exact value: round half to even.  (`Rat.floor q`
is `⌊q⌋`, spelled so that the kernel can evaluate it.) -/
def pyRoundInt (q : ℚ) : ℤ :=
  if q - Rat.floor q < 1 / 2 then Rat.floor q
  else if q - Rat.floor q > 1 / 2 then Rat.floor q + 1
  else if Rat.floor q % 2 = 0 then Rat.floor q else Rat.floor q + 1

/-- Python `round(q, 2)` on an exact value. -/
def pyRound2 (q : ℚ) : ℚ := (pyRoundInt (q * 100) : ℚ) / 100

/-! ### Staff display (src/app.py, format_orders_for_staff) -/

/-- `item.dish.price`: the relationship resolves the dish globally by id. -/
def dishPrice (s : Store) (did : Nat) : ℚ :=
  match s.dishes.find? (fun d => d.id == did) with
  | some d => d.price
  | none => 0

/-- `item.dish.name`, resolved like `dishPrice`. -/
def dishName (s : Store) (did : Nat) : String :=
  match s.dishes.find? (fun d => d.id == did) with
  | some d => d.name
  | none => ""

/-- One displayed item; the source renders `price` as the string
`f"{price} MAD"`. -/
structure StaffItem where
  name : String
  price : ℚ
deriving Repr, DecidableEq

/-- One displayed order; the source renders `timestamp` via `isoformat()`. -/
structure StaffEntry where
  id : Nat
  table_number : String
  items : List StaffItem
  total_price : ℚ
  timestamp : Nat
deriving Repr, DecidableEq

/-- `order.table_number or "—"`: Python `or` falls through on falsy values,
i.e. on `None` and on the empty string. -/
def tableLabel : Option String → String
  | none => "—"
  | some v => if v = "" then "—" else v

/-- `format_orders_for_staff`. -/
def format_orders_for_staff (s : Store) (orders : List Order) : List StaffEntry :=
  orders.map (fun o =>
    let items := s.orderItems.filter (fun it => it.orderId == o.id)
    let total := (items.map (fun it => dishPrice s it.dishId * it.quantity)).sum
    { id := o.id
      table_number := tableLabel o.tableNumber
      items := items.map (fun it =>
        let qty := it.quantity
        { name := dishName s it.dishId ++ (if qty > 1 then s!" (x{qty})" else "")
          price := dishPrice s it.dishId })
      total_price := pyRound2 total
      timestamp := o.createdAt })

/-! ### Daily sales (src/app.py, get_stats_today) -/

/-- The filter of `get_stats_today`: same restaurant, creation date equal to
today, status in {validated, completed}. -/
def matchesDaily (rid today : Nat) (o : Order) : Bool :=
  o.restaurantId == rid && o.createdAt == today &&
    (o.status == "validated" || o.status == "completed")

/-- `GET /api/stats/today/<public_id>`: total sales (rounded to 2 decimals)
and count of matching orders. -/
def get_stats_today (s : Store) (rid today : Nat) : ℚ × Nat :=
  let orders := s.orders.filter (matchesDaily rid today)
  let total := (orders.map (fun o =>
    ((s.orderItems.filter (fun it => it.orderId == o.id)).map
      (fun it => dishPrice s it.dishId * it.quantity)).sum)).sum
  (pyRound2 total, orders.length)

/-- Spec reading of the Daily Sales total (§4.5, §8): the sum of
(dish price × item quantity) over all items belonging to some matching order,
taken item by item over the whole item table. -/
def spec_daily_total (s : Store) (rid today : Nat) : ℚ :=
  ((s.orderItems.filter (fun it =>
      (s.orders.filter (matchesDaily rid today)).any (fun o => it.orderId == o.id))).map
    (fun it => dishPrice s it.dishId * it.quantity)).sum

/-! ## Helper lemmas -/

/-- A failing cart line makes the item loop fail. -/
theorem buildOrderItems_error_of_missing (s : Store) (rid oid : Nat) :
    ∀ (nid : Nat) (lines : List CartLine), (∃ l ∈ lines, findDish s l.id rid = none) →
      ∃ e, buildOrderItems s rid oid nid lines = Except.error e := by
  intro nid lines
  induction lines generalizing nid with
  | nil => rintro ⟨l, hl, -⟩; cases hl
  | cons l rest ih =>
    rintro ⟨l', hl', hmiss⟩
    rcases List.mem_cons.mp hl' with heq | hmem
    · subst heq
      exact ⟨l'.id, by simp [buildOrderItems, hmiss]⟩
    · cases hfd : findDish s l.id rid with
      | none => exact ⟨l.id, by simp [buildOrderItems, hfd]⟩
      | some d =>
        obtain ⟨e, he⟩ := ih (nid + 1) ⟨l', hmem, hmiss⟩
        exact ⟨e, by simp [buildOrderItems, hfd, he]⟩

/-- When every cart line resolves, the item loop succeeds and stages exactly
one quantity-1 item per line, all attached to the flushed order id. -/
theorem buildOrderItems_ok_of_all (s : Store) (rid oid : Nat) :
    ∀ (nid : Nat) (lines : List CartLine), (∀ l ∈ lines, findDish s l.id rid ≠ none) →
      ∃ items, buildOrderItems s rid oid nid lines = Except.ok items ∧
        items.length = lines.length ∧
        ∀ it ∈ items, it.orderId = oid ∧ it.quantity = 1 := by
  intro nid lines
  induction lines generalizing nid with
  | nil => exact fun _ => ⟨[], rfl, rfl, by simp⟩
  | cons l rest ih =>
    intro hall
    cases hfd : findDish s l.id rid with
    | none => exact absurd hfd (hall l (List.mem_cons_self l rest))
    | some d =>
      obtain ⟨items, hok, hlen, hq⟩ :=
        ih (nid + 1) (fun l' hl' => hall l' (List.mem_cons_of_mem l hl'))
      refine ⟨⟨nid, oid, d.id, 1⟩ :: items, ?_, ?_, ?_⟩
      · simp [buildOrderItems, hfd, hok]
      · simp [hlen]
      · intro it hit
        rcases List.mem_cons.mp hit with heq | hmem
        · subst heq; exact ⟨rfl, rfl⟩
        · exact hq it hmem

/-- The item loop always stages items for the flushed order with quantity 1,
one per cart line, whatever the cart contains. -/
theorem buildOrderItems_ok_spec (s : Store) (rid oid : Nat) :
    ∀ (nid : Nat) (lines : List CartLine) (items : List OrderItem),
      buildOrderItems s rid oid nid lines = Except.ok items →
      items.length = lines.length ∧ ∀ it ∈ items, it.orderId = oid ∧ it.quantity = 1 := by
  intro nid lines
  induction lines generalizing nid with
  | nil =>
    intro items h
    cases h
    exact ⟨rfl, by simp⟩
  | cons l rest ih =>
    intro items h
    cases hfd : findDish s l.id rid with
    | none => simp [buildOrderItems, hfd] at h
    | some d =>
      cases hrest : buildOrderItems s rid oid (nid + 1) rest with
      | error e => simp [buildOrderItems, hfd, hrest] at h
      | ok items' =>
        simp [buildOrderItems, hfd, hrest] at h
        obtain ⟨hlen, hq⟩ := ih (nid + 1) items' hrest
        subst h
        refine ⟨by simp [hlen], ?_⟩
        intro it hit
        rcases List.mem_cons.mp hit with heq | hmem
        · subst heq; exact ⟨rfl, rfl⟩
        · exact hq it hmem

/-- A small concrete store used by the witnesses: one category, a dish of
restaurant 1 and a dish of restaurant 2. -/
def wStore : Store :=
  { categories := [⟨1, "Plats", 1⟩]
    dishes := [⟨1, "Tajine", none, 80, 1, 1⟩, ⟨2, "Autre", none, 10, 1, 2⟩]
    orders := []
    orderItems := []
    nextCategoryId := 2
    nextOrderId := 1
    nextItemId := 1 }

/-! ## Claims -/

/-- Claim C1: Create Order is atomic.  For every restaurant and non-empty
cart, if some cart line's dish id does not resolve to a dish of that
restaurant the operation fails with `dishNotFound` and the store is returned
unchanged (nothing is persisted); otherwise the order header and exactly one
line item per cart entry are all persisted together in the committed store. -/
theorem create_order_atomic (s : Store) (rid : Nat) (tn : Option String)
    (lines : List CartLine) (today : Nat) (hne : lines ≠ []) :
    ((∃ l ∈ lines, findDish s l.id rid = none) →
      ∃ did, create_order_client s rid tn lines today = (s, CreateResult.dishNotFound did)) ∧
    ((∀ l ∈ lines, findDish s l.id rid ≠ none) →
      ∃ newItems : List OrderItem,
        create_order_client s rid tn lines today =
          ({ s with
              orders := s.orders ++ [⟨s.nextOrderId, rid, some (pyStr tn), "pending", today⟩],
              orderItems := s.orderItems ++ newItems,
              nextOrderId := s.nextOrderId + 1,
              nextItemId := s.nextItemId + newItems.length },
            CreateResult.ok s.nextOrderId) ∧
        newItems.length = lines.length) := by
  have hne' : lines.isEmpty = false := by
    cases lines with
    | nil => exact absurd rfl hne
    | cons a as => rfl
  constructor
  · intro hmiss
    obtain ⟨e, he⟩ := buildOrderItems_error_of_missing s rid s.nextOrderId s.nextItemId lines hmiss
    exact ⟨e, by simp [create_order_client, hne', he]⟩
  · intro hall
    obtain ⟨items, hok, hlen, -⟩ :=
      buildOrderItems_ok_of_all s rid s.nextOrderId s.nextItemId lines hall
    exact ⟨items, by simp [create_order_client, hne', hok], hlen⟩

/-- Claim C1 witness: in the concrete store, a two-line cart whose second line
names dish 99 (not a dish of restaurant 1) fails and leaves the store
unchanged. -/
theorem create_order_atomic_witness :
    create_order_client wStore 1 (some "5") [⟨1, none⟩, ⟨99, none⟩] 0 =
      (wStore, CreateResult.dishNotFound 99) := by
  obtain ⟨did, hd⟩ :=
    (create_order_atomic wStore 1 (some "5") [⟨1, none⟩, ⟨99, none⟩] 0 (by decide)).1
      ⟨⟨99, none⟩, by decide, by decide⟩
  decide

/-- Claim C2: every persisted OrderItem of a successfully created order has
quantity exactly 1, regardless of any requested quantity in the payload, and
one item is persisted per cart line — duplicate dish ids are never merged. -/
theorem create_order_items_quantity_one (s : Store) (rid : Nat) (tn : Option String)
    (lines : List CartLine) (today : Nat) (s' : Store) (oid : Nat)
    (h : create_order_client s rid tn lines today = (s', CreateResult.ok oid)) :
    ∃ newItems : List OrderItem,
      s'.orderItems = s.orderItems ++ newItems ∧
      newItems.length = lines.length ∧
      ∀ it ∈ newItems, it.orderId = oid ∧ it.quantity = 1 := by
  by_cases hne : lines.isEmpty
  · simp [create_order_client, hne] at h
  · rw [create_order_client, if_neg hne] at h
    cases hb : buildOrderItems s rid s.nextOrderId s.nextItemId lines with
    | error e => simp [hb] at h
    | ok items =>
      simp only [hb, Prod.mk.injEq, CreateResult.ok.injEq] at h
      obtain ⟨hs, hoid⟩ := h
      obtain ⟨hlen, hq⟩ := buildOrderItems_ok_spec s rid s.nextOrderId s.nextItemId lines items hb
      subst hoid
      exact ⟨items, by rw [← hs], hlen, hq⟩

/-- Claim C2 witness: a cart with the same dish on two lines, with requested
quantities 5 and 2, persists two separate items of quantity 1. -/
theorem create_order_items_quantity_one_witness :
    (create_order_client wStore 1 none [⟨1, some 5⟩, ⟨1, some 2⟩] 0).1.orderItems.map
      (fun it => (it.dishId, it.quantity)) = [(1, 1), (1, 1)] := by
  obtain ⟨items, h1, h2, h3⟩ :=
    create_order_items_quantity_one wStore 1 none [⟨1, some 5⟩, ⟨1, some 2⟩] 0
      (create_order_client wStore 1 none [⟨1, some 5⟩, ⟨1, some 2⟩] 0).1 1 (by decide)
  decide

/-- The status update of `confirm_order` never changes an order's id. -/
theorem confirm_upd_id (oid : Nat) (o : Order) :
    ((if o.id == oid then { o with status := "validated" } else o) : Order).id = o.id := by
  by_cases h : o.id == oid <;> simp [h]

/-- When the order id exists, `confirm_order` maps the status update over the
order table and answers 200. -/
theorem confirm_order_found (s : Store) (oid : Nat) (h : ∃ o ∈ s.orders, o.id = oid) :
    confirm_order s oid =
      ({ s with orders := s.orders.map (fun o =>
          if o.id == oid then { o with status := "validated" } else o) }, 200) := by
  obtain ⟨o, ho, hid⟩ := h
  have hany : (s.orders.any (fun o => o.id == oid)) = true :=
    List.any_eq_true.mpr ⟨o, ho, by simp [hid]⟩
  simp [confirm_order, hany]

/-- After the status update, every row with the confirmed id is validated. -/
theorem confirm_mapped_validated (s : Store) (oid : Nat) :
    ∀ o' ∈ s.orders.map (fun o =>
        if o.id == oid then { o with status := "validated" } else o),
      o'.id = oid → o'.status = "validated" := by
  intro o' ho' hid'
  obtain ⟨o₀, ho₀, rfl⟩ := List.mem_map.mp ho'
  by_cases h0 : o₀.id == oid
  · simp [h0]
  · rw [confirm_upd_id oid o₀] at hid'
    exact absurd hid' (by simpa using h0)

/-- The status update is idempotent on the order table. -/
theorem confirm_map_idem (s : Store) (oid : Nat) :
    (s.orders.map (fun o =>
        if o.id == oid then { o with status := "validated" } else o)).map (fun o =>
        if o.id == oid then { o with status := "validated" } else o)
      = s.orders.map (fun o =>
        if o.id == oid then { o with status := "validated" } else o) := by
  rw [List.map_map]
  congr 1
  funext o
  by_cases h : o.id == oid <;> simp [Function.comp, h]

/-- The status update preserves the existence check of `confirm_order`. -/
theorem confirm_any_map (s : Store) (oid : Nat) :
    ((s.orders.map (fun o =>
        if o.id == oid then { o with status := "validated" } else o)).any
      (fun o => o.id == oid)) = (s.orders.any (fun o => o.id == oid)) := by
  rw [List.any_map]
  congr 1
  funext o
  by_cases h : o.id == oid <;> simp [Function.comp, h]

/-- Claim C6: Confirm Order is idempotent.  For an existing order id the
operation answers 200, leaves every row with that id validated (in particular
an already-validated order stays validated), and running it a second time
returns exactly the same store and response; for an absent id it answers 404
and leaves the store unchanged. -/
theorem confirm_order_idempotent (s : Store) (oid : Nat) :
    ((∃ o ∈ s.orders, o.id = oid) →
      (confirm_order s oid).2 = 200 ∧
      (∀ o ∈ (confirm_order s oid).1.orders, o.id = oid → o.status = "validated") ∧
      confirm_order (confirm_order s oid).1 oid = confirm_order s oid) ∧
    ((∀ o ∈ s.orders, o.id ≠ oid) → confirm_order s oid = (s, 404)) := by
  constructor
  · intro h
    have hres := confirm_order_found s oid h
    refine ⟨by rw [hres], ?_, ?_⟩
    · intro o' ho' hid'
      rw [hres] at ho'
      exact confirm_mapped_validated s oid o' ho' hid'
    · obtain ⟨o, ho, hid⟩ := h
      have hany : (s.orders.any (fun o => o.id == oid)) = true :=
        List.any_eq_true.mpr ⟨o, ho, by simp [hid]⟩
      rw [hres]
      simp only [confirm_order, confirm_any_map s oid, hany, if_true, confirm_map_idem s oid]
  · intro h
    have hany : (s.orders.any (fun o => o.id == oid)) = false := by
      rw [List.any_eq_false]
      intro o ho
      simpa using h o ho
    simp [confirm_order, hany]

/-- Claim C6 witness: in a store with a single already-validated order 1,
confirming order 1 answers 200, keeps it validated, confirming again changes
nothing, and confirming the absent order 2 answers 404. -/
theorem confirm_order_idempotent_witness :
    (confirm_order ⟨[], [], [⟨1, 1, some "5", "validated", 0⟩], [], 1, 2, 1⟩ 1).2 = 200 ∧
    confirm_order (confirm_order ⟨[], [], [⟨1, 1, some "5", "validated", 0⟩], [], 1, 2, 1⟩ 1).1 1 =
      confirm_order ⟨[], [], [⟨1, 1, some "5", "validated", 0⟩], [], 1, 2, 1⟩ 1 ∧
    confirm_order ⟨[], [], [⟨1, 1, some "5", "validated", 0⟩], [], 1, 2, 1⟩ 2 =
      (⟨[], [], [⟨1, 1, some "5", "validated", 0⟩], [], 1, 2, 1⟩, 404) := by
  have h := confirm_order_idempotent ⟨[], [], [⟨1, 1, some "5", "validated", 0⟩], [], 1, 2, 1⟩ 1
  have h1 := h.1 ⟨⟨1, 1, some "5", "validated", 0⟩, by decide, rfl⟩
  have h2 := (confirm_order_idempotent ⟨[], [], [⟨1, 1, some "5", "validated", 0⟩], [], 1, 2, 1⟩ 2).2
    (by decide)
  exact ⟨h1.1, h1.2.2, h2⟩

/-- Claim C10: Confirm Order writes `'validated'` unconditionally, so
confirming an order whose status is `'completed'` downgrades it out of the
terminal state: the operation succeeds and afterwards every row with that id
has status `'validated'`, not `'completed'`. -/
theorem confirm_order_downgrades_completed (s : Store) (oid : Nat)
    (h : ∃ o ∈ s.orders, o.id = oid ∧ o.status = "completed") :
    (confirm_order s oid).2 = 200 ∧
    ∀ o ∈ (confirm_order s oid).1.orders, o.id = oid →
      o.status = "validated" ∧ o.status ≠ "completed" := by
  obtain ⟨o, ho, hid, -⟩ := h
  have hres := confirm_order_found s oid ⟨o, ho, hid⟩
  refine ⟨by rw [hres], ?_⟩
  intro o' ho' hid'
  rw [hres] at ho'
  have hv := confirm_mapped_validated s oid o' ho' hid'
  exact ⟨hv, by rw [hv]; decide⟩

/-- Claim C10 witness: confirming the completed order 1 leaves it validated. -/
theorem confirm_order_downgrades_completed_witness :
    (confirm_order ⟨[], [], [⟨1, 1, none, "completed", 0⟩], [], 1, 2, 1⟩ 1).1.orders.map
      (fun o => o.status) = ["validated"] := by
  have h := confirm_order_downgrades_completed
    ⟨[], [], [⟨1, 1, none, "completed", 0⟩], [], 1, 2, 1⟩ 1
    ⟨⟨1, 1, none, "completed", 0⟩, by decide, rfl, rfl⟩
  decide

/-- Claim C7: Get-Or-Create Category is idempotent.  Starting from a store
holding at most one category row for (restaurant, name), calling the operation
twice in sequence returns the same category id both times and leaves exactly
one category row for that (restaurant, name). -/
theorem get_or_create_category_idempotent (s : Store) (rid : Nat) (name : String)
    (hwf : (s.categories.filter (categoryMatches rid name)).length ≤ 1) :
    (get_or_create_category (get_or_create_category s rid name).1 rid name).2 =
      (get_or_create_category s rid name).2 ∧
    ((get_or_create_category (get_or_create_category s rid name).1 rid name).1.categories.filter
      (categoryMatches rid name)).length = 1 := by
  cases hf : s.categories.find? (categoryMatches rid name) with
  | some c =>
    have h1 : get_or_create_category s rid name = (s, c.id) := by
      simp [get_or_create_category, hf]
    have hmemf : c ∈ s.categories.filter (categoryMatches rid name) :=
      List.mem_filter.mpr ⟨List.mem_of_find?_eq_some hf, List.find?_some hf⟩
    have hlen : 0 < (s.categories.filter (categoryMatches rid name)).length :=
      List.length_pos_of_mem hmemf
    refine ⟨by simp [h1], ?_⟩
    simp only [h1]
    omega
  | none =>
    have h1 : get_or_create_category s rid name =
        ({ s with
            categories := s.categories ++ [⟨s.nextCategoryId, name, rid⟩],
            nextCategoryId := s.nextCategoryId + 1 }, s.nextCategoryId) := by
      simp [get_or_create_category, hf]
    have hmatch : categoryMatches rid name ⟨s.nextCategoryId, name, rid⟩ = true := by
      simp [categoryMatches]
    have hfind2 : (s.categories ++ [(⟨s.nextCategoryId, name, rid⟩ : Category)]).find?
        (categoryMatches rid name) = some ⟨s.nextCategoryId, name, rid⟩ := by
      rw [List.find?_append, hf]
      simp [List.find?, hmatch]
    have h2 : get_or_create_category
        ({ s with
            categories := s.categories ++ [⟨s.nextCategoryId, name, rid⟩],
            nextCategoryId := s.nextCategoryId + 1 } : Store) rid name =
        ({ s with
            categories := s.categories ++ [⟨s.nextCategoryId, name, rid⟩],
            nextCategoryId := s.nextCategoryId + 1 }, s.nextCategoryId) := by
      simp only [get_or_create_category, hfind2]
    have hfilterNil : s.categories.filter (categoryMatches rid name) = [] :=
      List.filter_eq_nil_iff.mpr (fun a ha => List.find?_eq_none.mp hf a ha)
    refine ⟨?_, ?_⟩ <;> simp [h1, h2, List.filter_append, hfilterNil, hmatch]

/-- Claim C7 witness: creating then re-requesting the category "Desserts" of
restaurant 1 in the concrete store returns the same id and leaves one row. -/
theorem get_or_create_category_idempotent_witness :
    (get_or_create_category (get_or_create_category wStore 1 "Desserts").1 1 "Desserts").2 =
      (get_or_create_category wStore 1 "Desserts").2 ∧
    ((get_or_create_category (get_or_create_category wStore 1 "Desserts").1
        1 "Desserts").1.categories.filter (categoryMatches 1 "Desserts")).length = 1 :=
  get_or_create_category_idempotent wStore 1 "Desserts" (by decide)

/-- A filtered sum over a disjunction of disjoint predicates splits. -/
theorem sum_map_filter_or {α : Type} (f : α → ℚ) (p q : α → Bool) :
    ∀ I : List α, (∀ x ∈ I, ¬(p x = true ∧ q x = true)) →
      ((I.filter (fun x => p x || q x)).map f).sum =
        ((I.filter p).map f).sum + ((I.filter q).map f).sum := by
  intro I
  induction I with
  | nil => intro _; simp
  | cons x xs ih =>
    intro hdisj
    have hx := hdisj x (List.mem_cons_self x xs)
    have hxs := fun y hy => hdisj y (List.mem_cons_of_mem x hy)
    by_cases hp : p x = true
    · have hq : q x = false := by
        cases hq : q x
        · rfl
        · exact absurd ⟨hp, hq⟩ hx
      simp [List.filter_cons, hp, hq, ih hxs]
      ring
    · have hp' : p x = false := Bool.eq_false_iff.mpr hp
      by_cases hqq : q x = true
      · simp [List.filter_cons, hp', hqq, ih hxs]
        ring
      · have hq' : q x = false := Bool.eq_false_iff.mpr hqq
        simp [List.filter_cons, hp', hq', ih hxs]

/-- The order-major double sum of `get_stats_today` equals the item-major
single sum, provided order ids are unique. -/
theorem sum_over_orders_eq_sum_over_items (f : OrderItem → ℚ) :
    ∀ (O : List Order) (I : List OrderItem), (O.map (fun o => o.id)).Nodup →
      ((O.map (fun o => ((I.filter (fun it => it.orderId == o.id)).map f).sum)).sum) =
        ((I.filter (fun it => O.any (fun o => it.orderId == o.id))).map f).sum := by
  intro O
  induction O with
  | nil => intro I _; simp
  | cons o os ih =>
    intro I hnd
    rw [List.map_cons, List.nodup_cons] at hnd
    obtain ⟨hid, hnd'⟩ := hnd
    have hdisj : ∀ it ∈ I, ¬((it.orderId == o.id) = true ∧
        (os.any (fun o' => it.orderId == o'.id)) = true) := by
      rintro it - ⟨h1, h2⟩
      obtain ⟨o', ho', h3⟩ := List.any_eq_true.mp h2
      exact hid (List.mem_map.mpr ⟨o', ho',
        by rw [← beq_iff_eq.mp h3, beq_iff_eq.mp h1]⟩)
    simp only [List.map_cons, List.sum_cons, List.any_cons]
    rw [sum_map_filter_or f _ _ I hdisj, ih I hnd']

/-- Claim C3: Daily Sales for a restaurant and a calendar date returns the
rounded sum of (dish price × item quantity) over all items of every order of
that restaurant with status `'validated'` or `'completed'` created on that
date, together with the count of those orders; items of orders in other
states, of other restaurants or of other dates contribute nothing. -/
theorem get_stats_today_spec (s : Store) (rid today : Nat)
    (hids : (s.orders.map (fun o => o.id)).Nodup) :
    get_stats_today s rid today =
      (pyRound2 (spec_daily_total s rid today),
        (s.orders.filter (matchesDaily rid today)).length) := by
  have hnd : ((s.orders.filter (matchesDaily rid today)).map (fun o => o.id)).Nodup :=
    ((List.filter_sublist s.orders).map (fun o => o.id)).nodup hids
  simp only [get_stats_today, spec_daily_total]
  rw [sum_over_orders_eq_sum_over_items (fun it => dishPrice s it.dishId * it.quantity)
    (s.orders.filter (matchesDaily rid today)) s.orderItems hnd]

/-- Concrete store for the Daily Sales witness: restaurant 1 has a validated
and a completed order on day 0 (the second with quantity 2), a pending order
on day 0, a completed order on day 1, and restaurant 2 has a completed order
on day 0. -/
def wStatsStore : Store :=
  { categories := [⟨1, "Plats", 1⟩]
    dishes := [⟨1, "Tajine", none, 80, 1, 1⟩, ⟨2, "Autre", none, 21 / 2, 1, 2⟩]
    orders := [⟨1, 1, some "5", "validated", 0⟩, ⟨2, 1, none, "pending", 0⟩,
               ⟨3, 2, none, "completed", 0⟩, ⟨4, 1, none, "completed", 1⟩,
               ⟨5, 1, none, "completed", 0⟩]
    orderItems := [⟨1, 1, 1, 1⟩, ⟨2, 2, 1, 1⟩, ⟨3, 3, 2, 1⟩, ⟨4, 4, 1, 1⟩, ⟨5, 5, 1, 2⟩]
    nextCategoryId := 2
    nextOrderId := 6
    nextItemId := 6 }

/-- Claim C3 witness: only the two validated/completed day-0 orders of
restaurant 1 count: 80 × 1 + 80 × 2 = 240, and the order count is 2. -/
theorem get_stats_today_spec_witness :
    get_stats_today wStatsStore 1 0 = (240, 2) := by
  have h := get_stats_today_spec wStatsStore 1 0 (by decide)
  have hitems : wStatsStore.orderItems.filter (fun it =>
      (wStatsStore.orders.filter (matchesDaily 1 0)).any (fun o => it.orderId == o.id)) =
      [⟨1, 1, 1, 1⟩, ⟨5, 5, 1, 2⟩] := by decide
  have htotal : spec_daily_total wStatsStore 1 0 = 240 := by
    rw [spec_daily_total, hitems]
    norm_num [dishPrice, wStatsStore]
  have hcount : (wStatsStore.orders.filter (matchesDaily 1 0)).length = 2 := by decide
  have hround : pyRound2 240 = 240 := by
    norm_num [pyRound2, pyRoundInt, Rat.floor_def']
  rw [h, htotal, hround, hcount]

/-- The regex search finds nothing exactly when no character is a digit or a
dot. -/
theorem firstRun_eq_none (cs : List Char) (h : ∀ c ∈ cs, isPriceChar c = false) :
    firstRun cs = none := by
  induction cs with
  | nil => rfl
  | cons c rest ih =>
    have hc := h c (List.mem_cons_self c rest)
    simp only [firstRun, hc, Bool.false_eq_true, if_false]
    exact ih fun c' hc' => h c' (List.mem_cons_of_mem c hc')

/-- Claim C4 counterexample: the input "." contains no digit, yet the parser
does not return 0.0 — the regex `[\d.]+` matches ".", and Python
`float(".")` raises a ValueError. -/
theorem extract_price_counterexample :
    (".".data.all (fun c => !c.isDigit)) = true ∧
    extract_price_from_string "." ≠ some 0 ∧
    extract_price_from_string "." = none := by
  refine ⟨by decide, ?_, by decide⟩
  have h : extract_price_from_string "." = none := by decide
  rw [h]
  exact fun hc => Option.noConfusion hc

/-- Claim C4 amended: the parser returns exactly 0.0 for every input with
neither a digit nor a dot; it parses "45.50 MAD" to exactly 45.50,
"45 MAD" to 45.0 and "MAD45" to 45.0; but an input whose first digit-or-dot
run has no digit or more than one dot (such as "." or "1.2.3") raises an
error instead of returning a number. -/
theorem extract_price_amended :
    (∀ s : String, (∀ c ∈ s.data, isPriceChar c = false) →
      extract_price_from_string s = some 0) ∧
    extract_price_from_string "45.50 MAD" = some (45.5 : ℚ) ∧
    extract_price_from_string "45 MAD" = some 45 ∧
    extract_price_from_string "MAD45" = some 45 ∧
    extract_price_from_string "." = none ∧
    extract_price_from_string "1.2.3" = none := by
  refine ⟨?_, ?_, ?_, ?_, by decide, by decide⟩
  · intro s h
    simp [extract_price_from_string, firstRun_eq_none s.data h]
  · have hrun : firstRun "45.50 MAD".data = some ['4', '5', '.', '5', '0'] := by decide
    have hiv : digitsVal ['4', '5'] = 45 := by decide
    have hfv : digitsVal ['5', '0'] = 50 := by decide
    simp [extract_price_from_string, hrun, pyFloatOfRun, hiv, hfv]
    norm_num
  · have hrun : firstRun "45 MAD".data = some ['4', '5'] := by decide
    have hiv : digitsVal ['4', '5'] = 45 := by decide
    simp [extract_price_from_string, hrun, pyFloatOfRun, hiv, digitsVal]
  · have hrun : firstRun "MAD45".data = some ['4', '5'] := by decide
    have hiv : digitsVal ['4', '5'] = 45 := by decide
    simp [extract_price_from_string, hrun, pyFloatOfRun, hiv, digitsVal]

/-- Claim C4 witness (for the amended universal part): "abc MAD" has neither
digits nor dots and parses to 0. -/
theorem extract_price_amended_witness :
    extract_price_from_string "abc MAD" = some 0 :=
  extract_price_amended.1 "abc MAD" (by decide)

/-- Claim C5, evaluated at the failing input: a cart naming dish 99 (no dish
of restaurant 1) is rolled back and the error body names the offending id,
but the HTTP status is 200, not 400 — the source writes
`return jsonify({'error': ...}, 400)`, so jsonify serializes the pair as a
two-element JSON array body and Flask's default status 200 applies. -/
theorem create_order_route_dish_not_found :
    create_order_route wStore 1 (some "5") [⟨99, none⟩] 0 =
      (wStore,
        (Json.arr [Json.obj [("error", Json.str "Plat non trouvé: 99")], Json.num 400],
          200)) := rfl

/-- Claim C8, evaluated at the failing input: `format_orders_for_staff` does
render the em-dash for a NULL table number, but an order created with no
table_number is stored with the string "None" (Python `str(None)`), so its
staff display shows "None", never the em-dash. -/
theorem staff_display_missing_table :
    tableLabel none = "—" ∧
    (create_order_client wStore 1 none [⟨1, none⟩] 0).1.orders.map
      (fun o => o.tableNumber) = [some "None"] ∧
    (format_orders_for_staff (create_order_client wStore 1 none [⟨1, none⟩] 0).1
        (create_order_client wStore 1 none [⟨1, none⟩] 0).1.orders).map
      (fun e => e.table_number) = ["None"] := by
  refine ⟨rfl, by decide, ?_⟩
  rfl

/-- Claim C9 counterexample: "__________8" is a possible output of
`secrets.token_urlsafe(8)` (it is the encoding of eight 0xFF bytes: eleven
base64url characters), yet the generated identifier is "rest_8" — one
character after the prefix, not 8. -/
theorem generate_public_id_counterexample :
    validToken "__________8".data = true ∧
    generate_public_id "__________8".data = "rest_8".data ∧
    (generate_public_id "__________8".data).length = 6 := by decide

/-- Claim C9 amended: every generated identifier is the fixed prefix "rest_"
followed by AT MOST 8 characters, all alphanumeric (hence URL-safe); the
suffix can be shorter than 8 because the stripped characters '_' and '-' are
not replaced. -/
theorem generate_public_id_amended (tok : List Char) (h : validToken tok = true) :
    ∃ suffix : List Char,
      generate_public_id tok = "rest_".data ++ suffix ∧
      suffix.length ≤ 8 ∧ ∀ c ∈ suffix, c.isAlphanum = true := by
  rw [validToken, Bool.and_eq_true] at h
  obtain ⟨-, hall⟩ := h
  refine ⟨((tok.filter (fun c => c != '_')).filter (fun c => c != '-')).take 8, rfl, ?_, ?_⟩
  · rw [List.length_take]
    exact min_le_left _ _
  · intro c hc
    obtain ⟨hc1, hnd⟩ := List.mem_filter.mp (List.mem_of_mem_take hc)
    obtain ⟨hc2, hnu⟩ := List.mem_filter.mp hc1
    have hb := List.all_eq_true.mp hall c hc2
    rw [urlsafeB64Char] at hb
    simp only [Bool.or_eq_true] at hb
    rcases hb with (ha | hda) | hun
    · exact ha
    · exact absurd (beq_iff_eq.mp hda) (by simpa using hnd)
    · exact absurd (beq_iff_eq.mp hun) (by simpa using hnu)

/-- Claim C9 witness (for the amended statement): a token with no stripped
characters keeps 8 characters after the prefix. -/
theorem generate_public_id_amended_witness :
    generate_public_id "abcDE01xyz9".data = "rest_abcDE01x".data := by
  have h := generate_public_id_amended "abcDE01xyz9".data (by decide)
  decide

end RestaurantMenu
